import Mathlib

/-
Verification development for the srelab/common repository.

The Go sources embedded here are:
  * log/log.go        — the structured-logging facade over the logrus engine;
  * validator/id.go   — the national ID-number validator.

External collaborators (the logrus engine's entry/level machinery, fmt's
formatting conventions, runtime stack introspection, the file/random helper
packages and lumberjack's rotation policy) are not part of the embedded
sources; where a definition stands in for one of them it is marked
"Modelled from the spec:" and follows the specification's documented
contract for that collaborator.
-/

set_option autoImplicit false

namespace Log

/-- Level describes the log severity level (Go: a uint8 enumeration built
with iota, PanicLevel = 0 through TraceLevel = 6). -/
inductive Level where
  | PanicLevel
  | FatalLevel
  | ErrorLevel
  | WarnLevel
  | InfoLevel
  | DebugLevel
  | TraceLevel
deriving DecidableEq, Repr

/-- The numeric value of a severity level, exactly the iota numbering of
the Go constant block (PanicLevel = 0, ..., TraceLevel = 6). -/
def Level.toNat : Level → Nat
  | .PanicLevel => 0
  | .FatalLevel => 1
  | .ErrorLevel => 2
  | .WarnLevel => 3
  | .InfoLevel => 4
  | .DebugLevel => 5
  | .TraceLevel => 6

/-- ASCII lowercasing of one character (the fragment of strings.ToLower
relevant to level names). -/
def asciiLower (c : Char) : Char :=
  if c.isUpper then Char.ofNat (c.toNat + 32) else c

/-- ASCII lowercasing of a string. -/
def lowerStr (s : String) : String := ⟨s.data.map asciiLower⟩

/-- Modelled from the spec: the engine resolves externally supplied level
names case-insensitively against the fixed vocabulary
panic, fatal, error, warn, info, debug, trace (logrus.ParseLevel);
an unrecognized name fails to parse. -/
def parseLevel (name : String) : Option Level :=
  match lowerStr name with
  | "panic" => some .PanicLevel
  | "fatal" => some .FatalLevel
  | "error" => some .ErrorLevel
  | "warn" => some .WarnLevel
  | "info" => some .InfoLevel
  | "debug" => some .DebugLevel
  | "trace" => some .TraceLevel
  | _ => none

/-- A field value attached to a log entry (Go: interface values; the
closed alternatives used in this development). -/
inductive Value where
  | str : String → Value
  | int : Int → Value
  | err : String → Value
deriving DecidableEq, Repr

/-- The default textual form of a field value, as the engine renders an
argument of an emission call. -/
def toText : Value → String
  | .str s => s
  | .int n => toString n
  | .err e => e

/-- Key-unique association-list update: every binding for the key is
removed and the new binding appended.  This models the engine's field map
(a Go map copied on attach): setting a key overwrites any prior binding. -/
def setField (fs : List (String × Value)) (k : String) (v : Value) :
    List (String × Value) :=
  fs.filter (fun p => p.1 != k) ++ [(k, v)]

/-- The keys of a field list. -/
def keys (fs : List (String × Value)) : List String := fs.map Prod.fst

/-- The value bound to a key in a field list (first binding wins, matching
map lookup on key-unique lists). -/
def lookupField (fs : List (String × Value)) (k : String) : Option Value :=
  List.lookup k fs

/-- How many bindings a field list holds for a key. -/
def countKey (fs : List (String × Value)) (k : String) : Nat :=
  (fs.filter (fun p => p.1 == k)).length

/-- A log entry: a reference to the owning engine logger plus the attached
field map (logrus.Entry's Logger pointer and Data map). -/
structure Entry where
  loggerRef : Nat
  fields : List (String × Value)
deriving DecidableEq, Repr

/-- Modelled from the spec: the engine's withField returns a new entry
with the field merged in; the prior entry is unaffected (copy-on-attach:
logrus copies the Data map before setting the key). -/
def Entry.withField (e : Entry) (k : String) (v : Value) : Entry :=
  { e with fields := setField e.fields k v }

/-- Modelled from the spec: the reserved field name under which the engine
attaches an error value. -/
def errorKey : String := "error"

/-- Modelled from the spec: the engine's withError attaches the error
under the reserved field name; the prior entry is unaffected. -/
def Entry.withError (e : Entry) (err : String) : Entry :=
  e.withField errorKey (.err err)

/-- The rotation policy handed to the rotating-file sink (lumberjack),
treated as opaque configuration. -/
structure RotationPolicy where
  maxSize : Nat
  maxBackups : Nat
  maxAge : Nat
  compress : Bool
  localTime : Bool
deriving DecidableEq, Repr

/-- An output destination of an engine logger: the engine's built-in
default stream, an arbitrary writer, or the multiplexer over standard
output and a rotating file sink (io.MultiWriter of os.Stdout and a
lumberjack.Logger with directory, file name and policy). -/
inductive Out where
  | stdout
  | writer : Nat → Out
  | multiStdoutFile : String → String → RotationPolicy → Out
deriving DecidableEq, Repr

/-- The mutable state of one engine logger: current minimum severity level
and current output destination (logrus.Logger's Level and Out). -/
structure EngineLogger where
  level : Level
  out : Out
deriving DecidableEq, Repr

/-- The process-wide heap of engine loggers, indexed by reference.  The
facade mutates this shared state; it is passed explicitly. -/
def World : Type := Nat → EngineLogger

/-- The reference of the package's single engine logger (origLogger =
logrus.New()). -/
def origLoggerRef : Nat := 0

/-- The initial world: every engine logger at its construction defaults
(logrus.New(): level Info, the built-in default output stream). -/
def defaultWorld : World := fun _ => ⟨.InfoLevel, .stdout⟩

/-- A line written by the engine: the severity, the entry's fields and the
rendered message payload. -/
structure OutputLine where
  level : Level
  fields : List (String × Value)
  msg : String
deriving DecidableEq, Repr

/-- Modelled from the spec: the engine's level-gated write path — the line
is written iff the emission severity is at-or-above the configured
minimum level (numerically, configured level value ≥ emission level
value); otherwise it is silently dropped.  The facade performs no
pre-filtering of its own. -/
def emit (w : World) (e : Entry) (level : Level) (msg : String) :
    Option OutputLine :=
  if level.toNat ≤ (w e.loggerRef).level.toNat then
    some ⟨level, e.fields, msg⟩
  else
    none

/-- Modelled from the spec: the concatenation convention — arguments are
converted to their default textual form and joined with a single space. -/
def sprint (args : List Value) : String :=
  String.intercalate " " (args.map toText)

/-- Modelled from the spec: the line-appended convention — like
concatenation, with a trailing newline appended. -/
def sprintln (args : List Value) : String :=
  sprint args ++ "\n"

/-- Modelled from the spec: the formatted convention — the format template
with placeholders substituted by the remaining arguments, for the verbs
used in this development (a d or s verb consumes one argument rendered in
its default textual form; a doubled percent is a literal percent). -/
def sprintfAux : List Char → List Value → List Char
  | [], _ => []
  | '%' :: 'd' :: rest, a :: as => (toText a).data ++ sprintfAux rest as
  | '%' :: 's' :: rest, a :: as => (toText a).data ++ sprintfAux rest as
  | '%' :: '%' :: rest, as => '%' :: sprintfAux rest as
  | c :: rest, as => c :: sprintfAux rest as

/-- Modelled from the spec: the formatted convention on strings. -/
def sprintf (format : String) (args : List Value) : String :=
  ⟨sprintfAux format.data args⟩

/-- A stack frame as reported by stack introspection: the full file name
and the line number of the call site. -/
structure Frame where
  file : String
  line : Nat
deriving DecidableEq, Repr

/-- Modelled from the spec: stack introspection (runtime.Caller) returns
the frame skip levels up the call stack when available.  The stack is
passed explicitly: frame 0 is the resolver itself (sourced), frame 1 the
facade method that called it, frame 2 the direct application caller. -/
def runtimeCaller (stack : List Frame) (skip : Nat) : Option Frame :=
  stack.get? skip

/-- The index of the last occurrence of a character in a list (Go
strings.LastIndex restricted to a single-character needle; none encodes
the Go result -1). -/
def lastIndex : List Char → Char → Option Nat
  | [], _ => none
  | a :: rest, c =>
    match lastIndex rest c with
    | some i => some (i + 1)
    | none => if a = c then some 0 else none

/-- The file name reduced to its final path segment: everything after the
last slash (Go: slash := strings.LastIndex(file, "/"); file[slash+1:],
which is the whole string when there is no slash since LastIndex then
returns -1). -/
def sourcedFile (s : String) : String :=
  match lastIndex s.data '/' with
  | none => s
  | some i => ⟨s.data.drop (i + 1)⟩

/-- The logger facade: wraps an engine entry (Go: type logger struct with
an embedded *logrus.Entry). -/
structure logger where
  entry : Entry
deriving DecidableEq, Repr

/-- With attaches a key-value pair to a logger. -/
def logger.With (l : logger) (key : String) (value : Value) : logger :=
  ⟨l.entry.withField key value⟩

/-- WithError attaches an error to a logger. -/
def logger.WithError (l : logger) (err : String) : logger :=
  ⟨l.entry.withError err⟩

/-- SetLevel sets the level of a logger: it writes through the entry's
logger reference into the shared engine state (l.entry.Logger.Level = ...). -/
def logger.SetLevel (l : logger) (level : Level) (w : World) : World :=
  fun r => if r = l.entry.loggerRef then { w r with level := level } else w r

/-- SetOut sets the output destination for a logger: it writes through the
entry's logger reference into the shared engine state. -/
def logger.SetOut (l : logger) (out : Out) (w : World) : World :=
  fun r => if r = l.entry.loggerRef then { w r with out := out } else w r

/-- sourced adds a source field to the logger that contains the file name
and line where the logging happened: frame 2 up the stack from the
resolver, the sentinel file name and line 1 on introspection failure, the
file name reduced to its final path segment on success. -/
def logger.sourced (l : logger) (stack : List Frame) : Entry :=
  let fl : String × Nat :=
    match runtimeCaller stack 2 with
    | none => ("<???>", 1)
    | some f => (sourcedFile f.file, f.line)
  l.entry.withField "src" (.str (fl.1 ++ ":" ++ toString fl.2))

/-- Trace logs a message at level Trace. -/
def logger.Trace (l : logger) (stack : List Frame) (args : List Value)
    (w : World) : Option OutputLine :=
  emit w (l.sourced stack) .TraceLevel (sprint args)

/-- Debug logs a message at level Debug. -/
def logger.Debug (l : logger) (stack : List Frame) (args : List Value)
    (w : World) : Option OutputLine :=
  emit w (l.sourced stack) .DebugLevel (sprint args)

/-- Print logs a message; the engine emits it at the informational tier
(logrus Entry.Print delegates to Entry.Info). -/
def logger.Print (l : logger) (stack : List Frame) (args : List Value)
    (w : World) : Option OutputLine :=
  emit w (l.sourced stack) .InfoLevel (sprint args)

/-- Info logs a message at level Info. -/
def logger.Info (l : logger) (stack : List Frame) (args : List Value)
    (w : World) : Option OutputLine :=
  emit w (l.sourced stack) .InfoLevel (sprint args)

/-- Warn logs a message at level Warn. -/
def logger.Warn (l : logger) (stack : List Frame) (args : List Value)
    (w : World) : Option OutputLine :=
  emit w (l.sourced stack) .WarnLevel (sprint args)

/-- Error logs a message at level Error. -/
def logger.Error (l : logger) (stack : List Frame) (args : List Value)
    (w : World) : Option OutputLine :=
  emit w (l.sourced stack) .ErrorLevel (sprint args)

/-- Fatal logs a message at level Fatal; the subsequent process
termination is a side effect outside this embedding. -/
def logger.Fatal (l : logger) (stack : List Frame) (args : List Value)
    (w : World) : Option OutputLine :=
  emit w (l.sourced stack) .FatalLevel (sprint args)

/-- Panic logs a message at level Panic; the subsequent control-flow panic
is a side effect outside this embedding. -/
def logger.Panic (l : logger) (stack : List Frame) (args : List Value)
    (w : World) : Option OutputLine :=
  emit w (l.sourced stack) .PanicLevel (sprint args)

/-- Tracef logs a formatted message at level Trace. -/
def logger.Tracef (l : logger) (stack : List Frame) (format : String)
    (args : List Value) (w : World) : Option OutputLine :=
  emit w (l.sourced stack) .TraceLevel (sprintf format args)

/-- Debugf logs a formatted message at level Debug. -/
def logger.Debugf (l : logger) (stack : List Frame) (format : String)
    (args : List Value) (w : World) : Option OutputLine :=
  emit w (l.sourced stack) .DebugLevel (sprintf format args)

/-- Printf logs a formatted message at the informational tier. -/
def logger.Printf (l : logger) (stack : List Frame) (format : String)
    (args : List Value) (w : World) : Option OutputLine :=
  emit w (l.sourced stack) .InfoLevel (sprintf format args)

/-- Infof logs a formatted message at level Info. -/
def logger.Infof (l : logger) (stack : List Frame) (format : String)
    (args : List Value) (w : World) : Option OutputLine :=
  emit w (l.sourced stack) .InfoLevel (sprintf format args)

/-- Warnf logs a formatted message at level Warn. -/
def logger.Warnf (l : logger) (stack : List Frame) (format : String)
    (args : List Value) (w : World) : Option OutputLine :=
  emit w (l.sourced stack) .WarnLevel (sprintf format args)

/-- Errorf logs a formatted message at level Error. -/
def logger.Errorf (l : logger) (stack : List Frame) (format : String)
    (args : List Value) (w : World) : Option OutputLine :=
  emit w (l.sourced stack) .ErrorLevel (sprintf format args)

/-- Fatalf logs a formatted message at level Fatal. -/
def logger.Fatalf (l : logger) (stack : List Frame) (format : String)
    (args : List Value) (w : World) : Option OutputLine :=
  emit w (l.sourced stack) .FatalLevel (sprintf format args)

/-- Panicf logs a formatted message at level Panic. -/
def logger.Panicf (l : logger) (stack : List Frame) (format : String)
    (args : List Value) (w : World) : Option OutputLine :=
  emit w (l.sourced stack) .PanicLevel (sprintf format args)

/-- Traceln logs a line-appended message at level Trace. -/
def logger.Traceln (l : logger) (stack : List Frame) (args : List Value)
    (w : World) : Option OutputLine :=
  emit w (l.sourced stack) .TraceLevel (sprintln args)

/-- Debugln logs a line-appended message at level Debug. -/
def logger.Debugln (l : logger) (stack : List Frame) (args : List Value)
    (w : World) : Option OutputLine :=
  emit w (l.sourced stack) .DebugLevel (sprintln args)

/-- Println logs a line-appended message at the informational tier. -/
def logger.Println (l : logger) (stack : List Frame) (args : List Value)
    (w : World) : Option OutputLine :=
  emit w (l.sourced stack) .InfoLevel (sprintln args)

/-- Infoln logs a line-appended message at level Info. -/
def logger.Infoln (l : logger) (stack : List Frame) (args : List Value)
    (w : World) : Option OutputLine :=
  emit w (l.sourced stack) .InfoLevel (sprintln args)

/-- Warnln logs a line-appended message at level Warn. -/
def logger.Warnln (l : logger) (stack : List Frame) (args : List Value)
    (w : World) : Option OutputLine :=
  emit w (l.sourced stack) .WarnLevel (sprintln args)

/-- Errorln logs a line-appended message at level Error. -/
def logger.Errorln (l : logger) (stack : List Frame) (args : List Value)
    (w : World) : Option OutputLine :=
  emit w (l.sourced stack) .ErrorLevel (sprintln args)

/-- Fatalln logs a line-appended message at level Fatal. -/
def logger.Fatalln (l : logger) (stack : List Frame) (args : List Value)
    (w : World) : Option OutputLine :=
  emit w (l.sourced stack) .FatalLevel (sprintln args)

/-- Panicln logs a line-appended message at level Panic. -/
def logger.Panicln (l : logger) (stack : List Frame) (args : List Value)
    (w : World) : Option OutputLine :=
  emit w (l.sourced stack) .PanicLevel (sprintln args)

/-- baseLogger: the package's shared facade instance over a fresh entry on
the single engine logger (logger with entry logrus.NewEntry(origLogger)). -/
def baseLogger : logger := ⟨⟨origLoggerRef, []⟩⟩

/-- New returns a new logger: a fresh facade over a fresh entry on the
same engine logger (origLogger). -/
def New : logger := ⟨⟨origLoggerRef, []⟩⟩

/-- Base returns the base logger. -/
def Base : logger := baseLogger

/-- The logger configuration handed to Init (Go: type Config struct with a
File path and a Level name). -/
structure Config where
  File : String
  Level : String
deriving DecidableEq, Repr

/-- Modelled from the spec: the outcomes, for the configured file path, of
the path helpers living outside the embedded sources — file.Dir and
file.Basename (the directory and base-name split), file.EnsureDirRW
(whether ensuring the directory read-writable fails), file.IsExist and
file.IsFile (existence and regular-file tests) — together with the result
of random.New().String(8, Lowercase), an 8-character random lowercase
string. -/
structure InitEnv where
  dirOfFile : String
  baseOfFile : String
  ensureDirRWFails : Bool
  isExist : Bool
  isFile : Bool
  randStr : String
deriving DecidableEq, Repr

/-- The fixed rotation policy Init passes to the rotating-file sink:
500-unit size cap, 3 backups, 28-day retention, compression on,
local-time rollover. -/
def initRotation : RotationPolicy :=
  { maxSize := 500, maxBackups := 3, maxAge := 28,
    compress := true, localTime := true }

/-- SetLevel sets the Level of the base logger. -/
def SetLevel (level : Level) (w : World) : World :=
  fun r => if r = baseLogger.entry.loggerRef then { w r with level := level }
  else w r

/-- GetLevel gets the level of a logger (reads the base logger's engine
level). -/
def GetLevel (w : World) : Level :=
  (w baseLogger.entry.loggerRef).level

/-- SetOut sets the output destination of the base logger. -/
def SetOut (out : Out) (w : World) : World :=
  fun r => if r = baseLogger.entry.loggerRef then { w r with out := out }
  else w r

/-- Initialize the logger with config.  When the path is not legal (the
directory cannot be ensured read-writable, or the path exists and is not a
regular file), the current path with a random 8-lowercase-character file
name is used; an unparseable level name falls back to Info; the output
becomes the multiplexer over standard output and the rotating file sink. -/
def Init (config : Config) (env : InitEnv) (w : World) : World :=
  let fpfn : String × String :=
    if env.ensureDirRWFails || (env.isExist && !env.isFile) then
      ("./", env.randStr ++ ".log")
    else
      (env.dirOfFile, env.baseOfFile)
  let level : Level :=
    match parseLevel config.Level with
    | some l => l
    | none => .InfoLevel
  SetOut (.multiStdoutFile fpfn.1 fpfn.2 initRotation) (SetLevel level w)

/-- With attaches a key-value pair to the base logger. -/
def With (key : String) (value : Value) : logger :=
  baseLogger.With key value

/-- WithError attaches an error to a source-stamped base entry
(logger with entry baseLogger.sourced().WithError(err)). -/
def WithError (err : String) (stack : List Frame) : logger :=
  ⟨(baseLogger.sourced stack).withError err⟩

/-- Trace logs a message at level Trace on the base logger. -/
def Trace (stack : List Frame) (args : List Value) (w : World) :
    Option OutputLine :=
  emit w (baseLogger.sourced stack) .TraceLevel (sprint args)

/-- Tracef logs a formatted message at level Trace on the base logger. -/
def Tracef (stack : List Frame) (format : String) (args : List Value)
    (w : World) : Option OutputLine :=
  emit w (baseLogger.sourced stack) .TraceLevel (sprintf format args)

/-- Traceln logs a line-appended message at level Trace on the base
logger. -/
def Traceln (stack : List Frame) (args : List Value) (w : World) :
    Option OutputLine :=
  emit w (baseLogger.sourced stack) .TraceLevel (sprintln args)

/-- Debug logs a message at level Debug on the base logger. -/
def Debug (stack : List Frame) (args : List Value) (w : World) :
    Option OutputLine :=
  emit w (baseLogger.sourced stack) .DebugLevel (sprint args)

/-- Debugf logs a formatted message at level Debug on the base logger. -/
def Debugf (stack : List Frame) (format : String) (args : List Value)
    (w : World) : Option OutputLine :=
  emit w (baseLogger.sourced stack) .DebugLevel (sprintf format args)

/-- Debugln logs a line-appended message at level Debug on the base
logger. -/
def Debugln (stack : List Frame) (args : List Value) (w : World) :
    Option OutputLine :=
  emit w (baseLogger.sourced stack) .DebugLevel (sprintln args)

/-- Print logs a message on the base logger at the informational tier. -/
def Print (stack : List Frame) (args : List Value) (w : World) :
    Option OutputLine :=
  emit w (baseLogger.sourced stack) .InfoLevel (sprint args)

/-- Printf logs a formatted message on the base logger at the
informational tier. -/
def Printf (stack : List Frame) (format : String) (args : List Value)
    (w : World) : Option OutputLine :=
  emit w (baseLogger.sourced stack) .InfoLevel (sprintf format args)

/-- Println logs a line-appended message on the base logger at the
informational tier. -/
def Println (stack : List Frame) (args : List Value) (w : World) :
    Option OutputLine :=
  emit w (baseLogger.sourced stack) .InfoLevel (sprintln args)

/-- Info logs a message at level Info on the base logger. -/
def Info (stack : List Frame) (args : List Value) (w : World) :
    Option OutputLine :=
  emit w (baseLogger.sourced stack) .InfoLevel (sprint args)

/-- Infof logs a formatted message at level Info on the base logger. -/
def Infof (stack : List Frame) (format : String) (args : List Value)
    (w : World) : Option OutputLine :=
  emit w (baseLogger.sourced stack) .InfoLevel (sprintf format args)

/-- Infoln logs a line-appended message at level Info on the base
logger. -/
def Infoln (stack : List Frame) (args : List Value) (w : World) :
    Option OutputLine :=
  emit w (baseLogger.sourced stack) .InfoLevel (sprintln args)

/-- Warn logs a message at level Warn on the base logger. -/
def Warn (stack : List Frame) (args : List Value) (w : World) :
    Option OutputLine :=
  emit w (baseLogger.sourced stack) .WarnLevel (sprint args)

/-- Warnf logs a formatted message at level Warn on the base logger. -/
def Warnf (stack : List Frame) (format : String) (args : List Value)
    (w : World) : Option OutputLine :=
  emit w (baseLogger.sourced stack) .WarnLevel (sprintf format args)

/-- Warnln logs a line-appended message at level Warn on the base
logger. -/
def Warnln (stack : List Frame) (args : List Value) (w : World) :
    Option OutputLine :=
  emit w (baseLogger.sourced stack) .WarnLevel (sprintln args)

/-- Error logs a message at level Error on the base logger. -/
def Error (stack : List Frame) (args : List Value) (w : World) :
    Option OutputLine :=
  emit w (baseLogger.sourced stack) .ErrorLevel (sprint args)

/-- Errorf logs a formatted message at level Error on the base logger. -/
def Errorf (stack : List Frame) (format : String) (args : List Value)
    (w : World) : Option OutputLine :=
  emit w (baseLogger.sourced stack) .ErrorLevel (sprintf format args)

/-- Errorln logs a line-appended message at level Error on the base
logger. -/
def Errorln (stack : List Frame) (args : List Value) (w : World) :
    Option OutputLine :=
  emit w (baseLogger.sourced stack) .ErrorLevel (sprintln args)

/-- Fatal logs a message at level Fatal on the base logger. -/
def Fatal (stack : List Frame) (args : List Value) (w : World) :
    Option OutputLine :=
  emit w (baseLogger.sourced stack) .FatalLevel (sprint args)

/-- Fatalf logs a formatted message at level Fatal on the base logger. -/
def Fatalf (stack : List Frame) (format : String) (args : List Value)
    (w : World) : Option OutputLine :=
  emit w (baseLogger.sourced stack) .FatalLevel (sprintf format args)

/-- Fatalln logs a line-appended message at level Fatal on the base
logger. -/
def Fatalln (stack : List Frame) (args : List Value) (w : World) :
    Option OutputLine :=
  emit w (baseLogger.sourced stack) .FatalLevel (sprintln args)

/-- Panic logs a message at level Panic on the base logger. -/
def Panic (stack : List Frame) (args : List Value) (w : World) :
    Option OutputLine :=
  emit w (baseLogger.sourced stack) .PanicLevel (sprint args)

/-- Panicf logs a formatted message at level Panic on the base logger. -/
def Panicf (stack : List Frame) (format : String) (args : List Value)
    (w : World) : Option OutputLine :=
  emit w (baseLogger.sourced stack) .PanicLevel (sprintf format args)

/-- Panicln logs a line-appended message at level Panic on the base
logger. -/
def Panicln (stack : List Frame) (args : List Value) (w : World) :
    Option OutputLine :=
  emit w (baseLogger.sourced stack) .PanicLevel (sprintln args)

end Log

namespace Validator

/-- The validation errors of the ID validator (Go: package-level error
values). -/
inductive Err where
  | ErrFormatInvalid
  | ErrAddressInvalid
  | ErrBirthFormatInvalid
  | ErrBirthRangeInvalid
  | ErrSumInvalid
deriving DecidableEq, Repr

/-- The area-code table, verbatim from the source — note the key with the
leading space for Shanghai. -/
def area : List (String × String) :=
  [("11", "北京"), ("12", "天津"), ("13", "河北"), ("14", "山西"),
   ("15", "内蒙"), ("21", "辽宁"), ("22", "吉林"), ("23", "黑龙"),
   (" 31", "上海"), ("32", "江苏"), ("33", "浙江"), ("34", "安徽"),
   ("35", "福建"), ("36", "江西"), ("37", "山东"), ("41", "河南"),
   ("42", "湖北"), ("43", "湖南"), ("44", "广东"), ("45", "广西"),
   ("46", "海南"), ("50", "重庆"), ("51", "四川"), ("52", "贵州"),
   ("53", "云南"), ("54", "西藏"), ("61", "陕西"), ("62", "甘肃"),
   ("63", "青海"), ("64", "宁夏"), ("65", "新疆"), ("71", "台湾"),
   ("81", "香港"), ("82", "澳门"), ("91", "国外")]

/-- The weights of the seventeen body digits. -/
def weight : List Nat := [7, 9, 10, 5, 8, 4, 2, 1, 6, 3, 7, 9, 10, 5, 8, 4, 2]

/-- The check characters indexed by the weighted sum modulo 11. -/
def code : List Char := ['1', '0', 'X', '9', '8', '7', '6', '5', '4', '3', '2']

/-- Whether two characters match the century alternative (18|19|20) of the
format pattern. -/
def matchCentury (a b : Char) : Bool :=
  (a = '1' && (b = '8' || b = '9')) || (a = '2' && b = '0')

/-- Whether two characters match the month alternative
(0 followed by a digit, or 10, 11, 12) of the format pattern. -/
def matchMonth (a b : Char) : Bool :=
  (a = '0' && b.isDigit) || (a = '1' && (b = '0' || b = '1' || b = '2'))

/-- Whether two characters match the day alternative
(0, 1 or 2 followed by a digit, or 30, 31) of the format pattern. -/
def matchDay (a b : Char) : Bool :=
  ((a = '0' || a = '1' || a = '2') && b.isDigit) ||
    (a = '3' && (b = '0' || b = '1'))

/-- Whether a character list matches the tail of the format pattern after
the six-digit area part and the optional century: two year digits, a
month, a day, three sequence digits, and an optional check digit or X. -/
def matchTail (cs : List Char) : Bool :=
  match cs with
  | [y1, y2, m1, m2, d1, d2, s1, s2, s3] =>
      y1.isDigit && y2.isDigit && matchMonth m1 m2 && matchDay d1 d2 &&
        s1.isDigit && s2.isDigit && s3.isDigit
  | [y1, y2, m1, m2, d1, d2, s1, s2, s3, c] =>
      y1.isDigit && y2.isDigit && matchMonth m1 m2 && matchDay d1 d2 &&
        s1.isDigit && s2.isDigit && s3.isDigit && (c.isDigit || c = 'X')
  | _ => false

/-- The anchored format pattern of the validator, as a decidable
predicate: six digits, an optional century (18, 19 or 20), two year
digits, a month, a day, three sequence digits, and an optional check
digit or X.  A string matches the Go regular expression iff some
decomposition fits, which — the alternatives having fixed widths — is the
disjunction below. -/
def matchReg (cs : List Char) : Bool :=
  match cs with
  | a1 :: a2 :: a3 :: a4 :: a5 :: a6 :: rest =>
      a1.isDigit && a2.isDigit && a3.isDigit && a4.isDigit &&
        a5.isDigit && a6.isDigit &&
        (matchTail rest ||
          (match rest with
           | c1 :: c2 :: rest2 => matchCentury c1 c2 && matchTail rest2
           | _ => false))
  | _ => false

/-- A calendar date, the fragment of a Go time.Time value this validator
inspects (time.Parse with layout 20060102 yields a date at midnight
UTC). -/
structure Date where
  y : Nat
  m : Nat
  d : Nat
deriving DecidableEq, Repr

/-- A numeric key that is order-isomorphic to chronological order for
dates with month and day below 100; instant comparison on such dates is
comparison of keys. -/
def Date.key (t : Date) : Nat := t.y * 10000 + t.m * 100 + t.d

/-- Go t.After(u): t is strictly later than u. -/
def Date.After (t u : Date) : Bool := u.key < t.key

/-- Go t.Before(u): t is strictly earlier than u. -/
def Date.Before (t u : Date) : Bool := t.key < u.key

/-- The number of days of a month, with the Gregorian leap-year rule —
the calendar time.Parse validates day components against. -/
def daysIn (y m : Nat) : Nat :=
  if m = 2 then
    if y % 4 = 0 && (y % 100 ≠ 0 || y % 400 = 0) then 29 else 28
  else if m = 4 || m = 6 || m = 9 || m = 11 then 30
  else 31

/-- The numeric value of a decimal digit character. -/
def digitVal (c : Char) : Nat := c.toNat - '0'.toNat

/-- Go time.Parse with the layout 20060102: exactly four year digits, two
month digits and two day digits; the month must be 1..12 and the day
1..daysIn of that month, else parsing fails. -/
def timeParse (cs : List Char) : Option Date :=
  match cs with
  | [y1, y2, y3, y4, m1, m2, d1, d2] =>
      if y1.isDigit && y2.isDigit && y3.isDigit && y4.isDigit &&
          m1.isDigit && m2.isDigit && d1.isDigit && d2.isDigit then
        let y := ((digitVal y1 * 10 + digitVal y2) * 10 + digitVal y3) * 10 +
          digitVal y4
        let m := digitVal m1 * 10 + digitVal m2
        let d := digitVal d1 * 10 + digitVal d2
        if 1 ≤ m && m ≤ 12 && 1 ≤ d && d ≤ daysIn y m then
          some ⟨y, m, d⟩
        else
          none
      else
        none
  | _ => none

/-- min_date = time.Date(1890, 0, 0, 0, 0, 0, 0, time.Local): Go
normalizes the zero month to December 1889 and the zero day to the last
day of the previous month, November 30, 1889. -/
def min_date : Date := ⟨1889, 11, 30⟩

/-- Go strconv.ParseFloat on a one-character string: the digit's value,
and 0 when parsing fails (the source discards the error, leaving the zero
value). -/
def parseFloatDigit (c : Char) : Nat :=
  if c.isDigit then digitVal c else 0

/-- An ID card under validation (Go: struct with the Number string; the
character list of that string). -/
structure IDCard where
  Number : List Char
deriving DecidableEq, Repr

/-- The format check: the number must match the pattern. -/
def IDCard.validateReg (i : IDCard) : Option Err :=
  if matchReg i.Number then none else some .ErrFormatInvalid

/-- The area check: the first two characters of the number must be a key
of the area table. -/
def IDCard.validateArea (i : IDCard) : Option Err :=
  if (area.lookup (String.mk (i.Number.take 2))).isSome then none
  else some .ErrAddressInvalid

/-- The birth check: characters 6..13 of the number must parse as a date,
and the parsed date must not be simultaneously after max_date (the
current instant, passed here as now) and before min_date.  The slice
Number[6:14] assumes a number of length at least 14, which the format
check guarantees. -/
def IDCard.validateBirth (i : IDCard) (now : Date) : Option Err :=
  match timeParse ((i.Number.drop 6).take 8) with
  | none => some .ErrBirthFormatInvalid
  | some date =>
      if date.After now && date.Before min_date then
        some .ErrBirthRangeInvalid
      else
        none

/-- The checksum: the weighted sum of the digit values of all but the last
character, modulo 11, indexes the expected check character, which must
equal the last character. -/
def IDCard.validateSum (i : IDCard) : Option Err :=
  let chars := i.Number.take (i.Number.length - 1)
  let sum := (chars.zip weight).foldl
    (fun s p => s + parseFloatDigit p.1 * p.2) 0
  match i.Number.getLast?, code.get? (sum % 11) with
  | some last, some c => if c = last then none else some .ErrSumInvalid
  | _, _ => some .ErrSumInvalid

/-- Validate runs the four checks in order, returning false with the
first error, or true with no error. -/
def IDCard.Validate (i : IDCard) (now : Date) : Bool × Option Err :=
  match i.validateReg with
  | some e => (false, some e)
  | none =>
    match i.validateArea with
    | some e => (false, some e)
    | none =>
      match i.validateBirth now with
      | some e => (false, some e)
      | none =>
        match i.validateSum with
        | some e => (false, some e)
        | none => (true, none)

end Validator

namespace Log

/-- The results of the 24 instance-level emission methods of a facade, for
one call shape: the eight severities in each of the three call
conventions. -/
def instanceEmissions (l : logger) (stack : List Frame) (args : List Value)
    (format : String) (w : World) : List (Option OutputLine) :=
  [l.Trace stack args w, l.Debug stack args w, l.Print stack args w,
   l.Info stack args w, l.Warn stack args w, l.Error stack args w,
   l.Fatal stack args w, l.Panic stack args w,
   l.Tracef stack format args w, l.Debugf stack format args w,
   l.Printf stack format args w, l.Infof stack format args w,
   l.Warnf stack format args w, l.Errorf stack format args w,
   l.Fatalf stack format args w, l.Panicf stack format args w,
   l.Traceln stack args w, l.Debugln stack args w, l.Println stack args w,
   l.Infoln stack args w, l.Warnln stack args w, l.Errorln stack args w,
   l.Fatalln stack args w, l.Panicln stack args w]

/-- The results of the 24 package-level emission functions, which operate
on the default (base) logger, for one call shape. -/
def packageEmissions (stack : List Frame) (args : List Value)
    (format : String) (w : World) : List (Option OutputLine) :=
  [Trace stack args w, Debug stack args w, Print stack args w,
   Info stack args w, Warn stack args w, Error stack args w,
   Fatal stack args w, Panic stack args w,
   Tracef stack format args w, Debugf stack format args w,
   Printf stack format args w, Infof stack format args w,
   Warnf stack format args w, Errorf stack format args w,
   Fatalf stack format args w, Panicf stack format args w,
   Traceln stack args w, Debugln stack args w, Println stack args w,
   Infoln stack args w, Warnln stack args w, Errorln stack args w,
   Fatalln stack args w, Panicln stack args w]

end Log

namespace Log

theorem countKey_setField (fs : List (String × Value)) (k : String)
    (v : Value) : countKey (setField fs k v) k = 1 := by
  have h : (fs.filter (fun p => p.1 != k)).filter (fun p => p.1 == k) = [] := by
    rw [List.filter_filter]
    simp [bne]
  simp [countKey, setField, List.filter_append, h]

theorem lookup_append_right {l1 l2 : List (String × Value)} {k : String}
    (h : ∀ p ∈ l1, p.1 ≠ k) :
    List.lookup k (l1 ++ l2) = List.lookup k l2 := by
  induction l1 with
  | nil => rfl
  | cons p rest ih =>
      have hk : (k == p.1) = false :=
        beq_eq_false_iff_ne.2 (Ne.symm (h p (List.mem_cons_self p rest)))
      simp only [List.cons_append, List.lookup, hk, if_false]
      exact ih (fun q hq => h q (List.mem_cons_of_mem p hq))

theorem lookupField_setField (fs : List (String × Value)) (k : String)
    (v : Value) : lookupField (setField fs k v) k = some v := by
  have h' : ∀ p ∈ fs.filter (fun p => p.1 != k), p.1 ≠ k := by
    intro p hp
    simpa [bne] using (List.mem_filter.1 hp).2
  unfold lookupField setField
  rw [lookup_append_right h']
  simp [List.lookup]

theorem mem_keys_setField {fs : List (String × Value)} {k b : String}
    {v : Value} (hne : b ≠ k) :
    b ∈ keys (setField fs k v) ↔ b ∈ keys fs := by
  simp only [keys, setField, List.map_append, List.mem_append, List.mem_map,
    List.mem_filter, List.map_cons, List.map_nil, List.mem_singleton]
  constructor
  · rintro (⟨p, ⟨hp, _⟩, he⟩ | he)
    · exact ⟨p, hp, he⟩
    · exact absurd he hne
  · rintro ⟨p, hp, he⟩
    exact Or.inl ⟨p, ⟨hp, by simp [bne, he, hne]⟩, he⟩

theorem mem_keys_setField_self (fs : List (String × Value)) (k : String)
    (v : Value) : k ∈ keys (setField fs k v) := by
  simp [keys, setField]

theorem emit_some_fields {w : World} {e : Entry} {lvl : Level}
    {msg : String} {line : OutputLine} (h : emit w e lvl msg = some line) :
    line.fields = e.fields := by
  unfold emit at h
  split at h
  · cases h; rfl
  · cases h

theorem sourced_loggerRef (l : logger) (stack : List Frame) :
    (l.sourced stack).loggerRef = l.entry.loggerRef := rfl

theorem sourced_fields_ex (l : logger) (stack : List Frame) :
    ∃ v : Value, (l.sourced stack).fields = setField l.entry.fields "src" v := by
  cases h : runtimeCaller stack 2 with
  | none =>
      exact ⟨.str ("<???>" ++ ":" ++ toString 1),
        by simp [logger.sourced, h, Entry.withField]⟩
  | some f =>
      exact ⟨.str (sourcedFile f.file ++ ":" ++ toString f.line),
        by simp [logger.sourced, h, Entry.withField]⟩

theorem sourced_countKey (l : logger) (stack : List Frame) :
    countKey (l.sourced stack).fields "src" = 1 := by
  obtain ⟨v, hv⟩ := sourced_fields_ex l stack
  rw [hv]
  exact countKey_setField _ _ _

theorem mem_keys_sourced {l : logger} {stack : List Frame} {b : String}
    (hb : b ≠ "src") :
    b ∈ keys (l.sourced stack).fields ↔ b ∈ keys l.entry.fields := by
  obtain ⟨v, hv⟩ := sourced_fields_ex l stack
  rw [hv]
  exact mem_keys_setField hb

theorem sourced_lookup_cons (l : logger) (f0 f1 f2 : Frame)
    (rest : List Frame) :
    lookupField (l.sourced (f0 :: f1 :: f2 :: rest)).fields "src" =
      some (.str (sourcedFile f2.file ++ ":" ++ toString f2.line)) :=
  lookupField_setField _ _ _

end Log

/-- C6: the severity levels form the exact numeric enumeration Panic = 0,
Fatal = 1, Error = 2, Warn = 3, Info = 4, Debug = 5, Trace = 6; this
numbering is what the engine's level gate compares and what externally
supplied level names resolve to. -/
theorem log_level_numbering (w : Log.World) (e : Log.Entry)
    (lv : Log.Level) (msg : String) :
    (Log.Level.toNat .PanicLevel = 0 ∧ Log.Level.toNat .FatalLevel = 1 ∧
      Log.Level.toNat .ErrorLevel = 2 ∧ Log.Level.toNat .WarnLevel = 3 ∧
      Log.Level.toNat .InfoLevel = 4 ∧ Log.Level.toNat .DebugLevel = 5 ∧
      Log.Level.toNat .TraceLevel = 6 ∧
      Log.parseLevel "panic" = some .PanicLevel ∧
      Log.parseLevel "fatal" = some .FatalLevel ∧
      Log.parseLevel "error" = some .ErrorLevel ∧
      Log.parseLevel "warn" = some .WarnLevel ∧
      Log.parseLevel "info" = some .InfoLevel ∧
      Log.parseLevel "debug" = some .DebugLevel ∧
      Log.parseLevel "trace" = some .TraceLevel) ∧
    Log.emit w e lv msg =
      (if lv.toNat ≤ (w e.loggerRef).level.toNat then
        some ⟨lv, e.fields, msg⟩ else none) := by
  exact ⟨by decide, rfl⟩

/-- C8: minimum level and output destination are shared process-wide
state — New() facades, With-derived facades and the default logger all
read and write the single engine logger, so SetLevel and SetOut through
any handle are observed by every other handle. -/
theorem log_shared_config (w : Log.World) (lvl : Log.Level) (o : Log.Out)
    (k : String) (v : Log.Value) :
    ((Log.SetLevel lvl w) Log.New.entry.loggerRef).level = lvl ∧
    ((Log.SetOut o w) Log.New.entry.loggerRef).out = o ∧
    Log.GetLevel (Log.New.SetLevel lvl w) = lvl ∧
    ((Log.New.SetOut o w) Log.baseLogger.entry.loggerRef).out = o ∧
    (((Log.New.With k v).SetLevel lvl w) Log.origLoggerRef).level = lvl ∧
    Log.New.entry.loggerRef = Log.baseLogger.entry.loggerRef := by
  refine ⟨?_, ?_, ?_, ?_, ?_, rfl⟩ <;>
    simp [Log.SetLevel, Log.SetOut, Log.GetLevel, Log.logger.SetLevel,
      Log.logger.SetOut, Log.New, Log.baseLogger, Log.logger.With,
      Log.Entry.withField, Log.origLoggerRef]

/-- C2: output is produced iff the emission severity is at-or-above the
configured minimum level under the numeric ordering; after SetLevel Warn,
an Info emission produces no output while an Error emission produces
output; and the facade performs no pre-filtering — every emission method
delegates unconditionally to the engine's gated write path. -/
theorem log_level_gate (w : Log.World) (e : Log.Entry) (lv : Log.Level)
    (msg : String) (l : Log.logger) (stack : List Log.Frame)
    (args : List Log.Value) (format : String) :
    ((Log.emit w e lv msg).isSome =
      decide (lv.toNat ≤ (w e.loggerRef).level.toNat)) ∧
    (Log.Info stack args (Log.SetLevel .WarnLevel w) = none) ∧
    ((Log.Error stack args (Log.SetLevel .WarnLevel w)).isSome = true) ∧
    ((l.Trace stack args w =
        Log.emit w (l.sourced stack) .TraceLevel (Log.sprint args)) ∧
     (l.Debug stack args w =
        Log.emit w (l.sourced stack) .DebugLevel (Log.sprint args)) ∧
     (l.Print stack args w =
        Log.emit w (l.sourced stack) .InfoLevel (Log.sprint args)) ∧
     (l.Info stack args w =
        Log.emit w (l.sourced stack) .InfoLevel (Log.sprint args)) ∧
     (l.Warn stack args w =
        Log.emit w (l.sourced stack) .WarnLevel (Log.sprint args)) ∧
     (l.Error stack args w =
        Log.emit w (l.sourced stack) .ErrorLevel (Log.sprint args)) ∧
     (l.Fatal stack args w =
        Log.emit w (l.sourced stack) .FatalLevel (Log.sprint args)) ∧
     (l.Panic stack args w =
        Log.emit w (l.sourced stack) .PanicLevel (Log.sprint args)) ∧
     (l.Tracef stack format args w =
        Log.emit w (l.sourced stack) .TraceLevel (Log.sprintf format args)) ∧
     (l.Debugf stack format args w =
        Log.emit w (l.sourced stack) .DebugLevel (Log.sprintf format args)) ∧
     (l.Printf stack format args w =
        Log.emit w (l.sourced stack) .InfoLevel (Log.sprintf format args)) ∧
     (l.Infof stack format args w =
        Log.emit w (l.sourced stack) .InfoLevel (Log.sprintf format args)) ∧
     (l.Warnf stack format args w =
        Log.emit w (l.sourced stack) .WarnLevel (Log.sprintf format args)) ∧
     (l.Errorf stack format args w =
        Log.emit w (l.sourced stack) .ErrorLevel (Log.sprintf format args)) ∧
     (l.Fatalf stack format args w =
        Log.emit w (l.sourced stack) .FatalLevel (Log.sprintf format args)) ∧
     (l.Panicf stack format args w =
        Log.emit w (l.sourced stack) .PanicLevel (Log.sprintf format args)) ∧
     (l.Traceln stack args w =
        Log.emit w (l.sourced stack) .TraceLevel (Log.sprintln args)) ∧
     (l.Debugln stack args w =
        Log.emit w (l.sourced stack) .DebugLevel (Log.sprintln args)) ∧
     (l.Println stack args w =
        Log.emit w (l.sourced stack) .InfoLevel (Log.sprintln args)) ∧
     (l.Infoln stack args w =
        Log.emit w (l.sourced stack) .InfoLevel (Log.sprintln args)) ∧
     (l.Warnln stack args w =
        Log.emit w (l.sourced stack) .WarnLevel (Log.sprintln args)) ∧
     (l.Errorln stack args w =
        Log.emit w (l.sourced stack) .ErrorLevel (Log.sprintln args)) ∧
     (l.Fatalln stack args w =
        Log.emit w (l.sourced stack) .FatalLevel (Log.sprintln args)) ∧
     (l.Panicln stack args w =
        Log.emit w (l.sourced stack) .PanicLevel (Log.sprintln args))) ∧
    ((Log.Trace stack args w =
        Log.emit w (Log.baseLogger.sourced stack) .TraceLevel
          (Log.sprint args)) ∧
     (Log.Info stack args w =
        Log.emit w (Log.baseLogger.sourced stack) .InfoLevel
          (Log.sprint args)) ∧
     (Log.Warn stack args w =
        Log.emit w (Log.baseLogger.sourced stack) .WarnLevel
          (Log.sprint args)) ∧
     (Log.Error stack args w =
        Log.emit w (Log.baseLogger.sourced stack) .ErrorLevel
          (Log.sprint args)) ∧
     (Log.Infof stack format args w =
        Log.emit w (Log.baseLogger.sourced stack) .InfoLevel
          (Log.sprintf format args)) ∧
     (Log.Infoln stack args w =
        Log.emit w (Log.baseLogger.sourced stack) .InfoLevel
          (Log.sprintln args))) := by
  refine ⟨?_, ?_, ?_, ?_, ?_⟩
  · unfold Log.emit
    split <;> simp_all
  · show Log.emit (Log.SetLevel .WarnLevel w) (Log.baseLogger.sourced stack)
      .InfoLevel (Log.sprint args) = none
    unfold Log.emit
    rw [Log.sourced_loggerRef]
    simp [Log.SetLevel, Log.baseLogger, Log.Level.toNat]
  · show (Log.emit (Log.SetLevel .WarnLevel w) (Log.baseLogger.sourced stack)
      .ErrorLevel (Log.sprint args)).isSome = true
    unfold Log.emit
    rw [Log.sourced_loggerRef]
    simp [Log.SetLevel, Log.baseLogger, Log.Level.toNat]
  · repeat' apply And.intro
    all_goals rfl
  · repeat' apply And.intro
    all_goals rfl

/-- C7: the concatenation-style method renders its arguments in their
default textual form joined with a single space, and the two call
conventions are not aliased — Infof with the template count=%d applied to
3 yields the message count=3, while Info applied to the arguments
count= and 3 yields the textually different message count= 3. -/
theorem log_concat_vs_formatted (l : Log.logger) (stack : List Log.Frame)
    (args : List Log.Value) (w : Log.World) :
    (Log.sprint args = String.intercalate " " (args.map Log.toText)) ∧
    ((l.Trace stack args w =
        Log.emit w (l.sourced stack) .TraceLevel
          (String.intercalate " " (args.map Log.toText))) ∧
     (l.Debug stack args w =
        Log.emit w (l.sourced stack) .DebugLevel
          (String.intercalate " " (args.map Log.toText))) ∧
     (l.Print stack args w =
        Log.emit w (l.sourced stack) .InfoLevel
          (String.intercalate " " (args.map Log.toText))) ∧
     (l.Info stack args w =
        Log.emit w (l.sourced stack) .InfoLevel
          (String.intercalate " " (args.map Log.toText))) ∧
     (l.Warn stack args w =
        Log.emit w (l.sourced stack) .WarnLevel
          (String.intercalate " " (args.map Log.toText))) ∧
     (l.Error stack args w =
        Log.emit w (l.sourced stack) .ErrorLevel
          (String.intercalate " " (args.map Log.toText))) ∧
     (l.Fatal stack args w =
        Log.emit w (l.sourced stack) .FatalLevel
          (String.intercalate " " (args.map Log.toText))) ∧
     (l.Panic stack args w =
        Log.emit w (l.sourced stack) .PanicLevel
          (String.intercalate " " (args.map Log.toText)))) ∧
    (Log.sprintf "count=%d" [.int 3] = "count=3") ∧
    (Log.sprint [.str "count=", .int 3] = "count= 3") ∧
    (Log.sprintf "count=%d" [.int 3] ≠ Log.sprint [.str "count=", .int 3]) ∧
    (Option.map Log.OutputLine.msg
        (Log.baseLogger.Infof [] "count=%d" [.int 3] Log.defaultWorld) =
      some "count=3") ∧
    (Option.map Log.OutputLine.msg
        (Log.baseLogger.Info [] [.str "count=", .int 3] Log.defaultWorld) =
      some "count= 3") := by
  refine ⟨rfl, ⟨rfl, rfl, rfl, rfl, rfl, rfl, rfl, rfl⟩, ?_, ?_, ?_, ?_, ?_⟩
  all_goals decide

/-- C1: attaching fields is copy-on-attach — after attaching field a to a
logger and field b to the result, logging through the original handle or
through the intermediate handle never includes field b (provided the
original did not already carry b), while logging through the final handle
does include it. -/
theorem log_with_copy_on_attach (l : Log.logger) (v1 v2 : Log.Value)
    (stack : List Log.Frame) (args : List Log.Value) (w : Log.World)
    (hb : "b" ∉ Log.keys l.entry.fields) :
    (∀ line, l.Info stack args w = some line →
      "b" ∉ Log.keys line.fields) ∧
    (∀ line, (l.With "a" v1).Info stack args w = some line →
      "b" ∉ Log.keys line.fields) ∧
    (∀ line, ((l.With "a" v1).With "b" v2).Info stack args w = some line →
      "b" ∈ Log.keys line.fields) := by
  have hbs : ("b" : String) ≠ "src" := by decide
  have hba : ("b" : String) ≠ "a" := by decide
  refine ⟨?_, ?_, ?_⟩
  · intro line h
    rw [Log.emit_some_fields h, Log.mem_keys_sourced hbs]
    exact hb
  · intro line h
    rw [Log.emit_some_fields h, Log.mem_keys_sourced hbs]
    show "b" ∉ Log.keys (Log.setField l.entry.fields "a" v1)
    rw [Log.mem_keys_setField hba]
    exact hb
  · intro line h
    rw [Log.emit_some_fields h, Log.mem_keys_sourced hbs]
    exact Log.mem_keys_setField_self _ _ _

/-- Witness for C1 at the base logger with fields a ↦ 1 and b ↦ 2, the
empty stack and an Info-enabled world. -/
theorem log_with_copy_on_attach_witness :
    ("b" ∉ Log.keys Log.baseLogger.entry.fields) ∧
    ((∀ line, Log.baseLogger.Info [] [] Log.defaultWorld = some line →
        "b" ∉ Log.keys line.fields) ∧
     (∀ line,
        (Log.baseLogger.With "a" (.int 1)).Info [] [] Log.defaultWorld =
          some line → "b" ∉ Log.keys line.fields) ∧
     (∀ line,
        ((Log.baseLogger.With "a" (.int 1)).With "b" (.int 2)).Info [] []
          Log.defaultWorld = some line → "b" ∈ Log.keys line.fields)) :=
  ⟨by decide,
   log_with_copy_on_attach Log.baseLogger (.int 1) (.int 2) [] []
     Log.defaultWorld (by decide)⟩

/-- C4: every emission — all 24 severity methods on a facade instance and
all 24 package-level functions — carries exactly one src field, whose
value is file:line for the frame two levels above the resolver, i.e. the
direct application caller of the facade method, never facade plumbing. -/
theorem log_src_direct_caller (l : Log.logger) (f0 f1 f2 : Log.Frame)
    (rest : List Log.Frame) (args : List Log.Value) (format : String)
    (w : Log.World) :
    (Log.countKey (l.sourced (f0 :: f1 :: f2 :: rest)).fields "src" = 1) ∧
    (Log.lookupField (l.sourced (f0 :: f1 :: f2 :: rest)).fields "src" =
      some (.str (Log.sourcedFile f2.file ++ ":" ++ toString f2.line))) ∧
    (∀ o ∈ Log.instanceEmissions l (f0 :: f1 :: f2 :: rest) args format w,
      ∀ line, o = some line →
        Log.countKey line.fields "src" = 1 ∧
        Log.lookupField line.fields "src" =
          some (.str (Log.sourcedFile f2.file ++ ":" ++
            toString f2.line))) ∧
    (∀ o ∈ Log.packageEmissions (f0 :: f1 :: f2 :: rest) args format w,
      ∀ line, o = some line →
        Log.countKey line.fields "src" = 1 ∧
        Log.lookupField line.fields "src" =
          some (.str (Log.sourcedFile f2.file ++ ":" ++
            toString f2.line))) := by
  have key : ∀ (l' : Log.logger) (lvl : Log.Level) (msg : String)
      (line : Log.OutputLine),
      Log.emit w (l'.sourced (f0 :: f1 :: f2 :: rest)) lvl msg = some line →
      Log.countKey line.fields "src" = 1 ∧
        Log.lookupField line.fields "src" =
          some (.str (Log.sourcedFile f2.file ++ ":" ++ toString f2.line)) := by
    intro l' lvl msg line h
    refine ⟨?_, ?_⟩ <;> rw [Log.emit_some_fields h]
    · exact Log.sourced_countKey _ _
    · exact Log.sourced_lookup_cons _ _ _ _ _
  refine ⟨Log.sourced_countKey _ _, Log.sourced_lookup_cons _ _ _ _ _, ?_, ?_⟩
  · intro o ho line hline
    simp only [Log.instanceEmissions, List.mem_cons, List.not_mem_nil,
      or_false] at ho
    rcases ho with rfl|rfl|rfl|rfl|rfl|rfl|rfl|rfl|rfl|rfl|rfl|rfl|rfl|rfl|
      rfl|rfl|rfl|rfl|rfl|rfl|rfl|rfl|rfl|rfl
    all_goals exact key _ _ _ _ hline
  · intro o ho line hline
    simp only [Log.packageEmissions, List.mem_cons, List.not_mem_nil,
      or_false] at ho
    rcases ho with rfl|rfl|rfl|rfl|rfl|rfl|rfl|rfl|rfl|rfl|rfl|rfl|rfl|rfl|
      rfl|rfl|rfl|rfl|rfl|rfl|rfl|rfl|rfl|rfl
    all_goals exact key _ _ _ _ hline

/-- Witness for C4: a concrete three-frame stack whose application frame
is main.go line 42, exercised through the instance-level Info method. -/
theorem log_src_direct_caller_witness :
    Log.countKey
        (⟨Log.Level.InfoLevel, [("src", Log.Value.str "main.go:42")], ""⟩ :
          Log.OutputLine).fields "src" = 1 ∧
    Log.lookupField
        (⟨Log.Level.InfoLevel, [("src", Log.Value.str "main.go:42")], ""⟩ :
          Log.OutputLine).fields "src" =
      some (.str (Log.sourcedFile "app/main.go" ++ ":" ++ toString 42)) :=
  (log_src_direct_caller Log.baseLogger ⟨"log.go", 217⟩ ⟨"log.go", 127⟩
      ⟨"app/main.go", 42⟩ [] [] "" Log.defaultWorld).2.2.1
    (Log.baseLogger.Info
      [⟨"log.go", 217⟩, ⟨"log.go", 127⟩, ⟨"app/main.go", 42⟩] []
      Log.defaultWorld)
    (List.mem_cons_of_mem _ (List.mem_cons_of_mem _
      (List.mem_cons_of_mem _ (List.mem_cons_self _ _))))
    ⟨Log.Level.InfoLevel, [("src", Log.Value.str "main.go:42")], ""⟩
    (by decide)

namespace Log

theorem lastIndex_none {cs : List Char} {c : Char}
    (h : lastIndex cs c = none) : c ∉ cs := by
  induction cs with
  | nil => simp
  | cons a rest ih =>
      rw [lastIndex] at h
      cases hrec : lastIndex rest c with
      | some i => rw [hrec] at h; cases h
      | none =>
          rw [hrec] at h
          by_cases hac : a = c
          · rw [if_pos hac] at h; cases h
          · simp only [List.mem_cons]
            rintro (rfl | hm)
            · exact hac rfl
            · exact ih hrec hm

theorem lastIndex_spec {cs : List Char} {c : Char} {i : Nat}
    (h : lastIndex cs c = some i) :
    i < cs.length ∧ cs.get? i = some c ∧ c ∉ cs.drop (i + 1) := by
  induction cs generalizing i with
  | nil => cases h
  | cons a rest ih =>
      rw [lastIndex] at h
      cases hrec : lastIndex rest c with
      | some j =>
          rw [hrec] at h
          cases h
          obtain ⟨h1, h2, h3⟩ := ih hrec
          exact ⟨Nat.succ_lt_succ h1, h2, h3⟩
      | none =>
          rw [hrec] at h
          by_cases hac : a = c
          · rw [if_pos hac] at h
            cases h
            exact ⟨Nat.succ_pos _, by rw [hac]; rfl, lastIndex_none hrec⟩
          · rw [if_neg hac] at h; cases h

theorem getLast?_take_succ {l : List Char} {i : Nat} {c : Char}
    (h : l.get? i = some c) : (l.take (i + 1)).getLast? = some c := by
  have h' : l[i]? = some c := by
    rw [← List.get?_eq_getElem?]
    exact h
  rw [List.take_succ, h']
  exact List.getLast?_concat _

end Log

/-- C5: on stack-introspection failure the log call still succeeds and
the src field carries the sentinel file name and line 1; on success the
reported file name is everything after the last slash of the full file
name. -/
theorem log_sourced_resolution (l : Log.logger) (stack : List Log.Frame)
    (f : Log.Frame) (s : String) :
    (Log.runtimeCaller stack 2 = none →
      Log.lookupField (l.sourced stack).fields "src" =
        some (.str "<???>:1")) ∧
    (Log.runtimeCaller stack 2 = some f →
      Log.lookupField (l.sourced stack).fields "src" =
        some (.str (Log.sourcedFile f.file ++ ":" ++ toString f.line))) ∧
    ('/' ∉ (Log.sourcedFile s).data) ∧
    (∃ pre, s.data = pre ++ (Log.sourcedFile s).data ∧
      (pre = [] ∨ pre.getLast? = some '/')) := by
  refine ⟨?_, ?_, ?_⟩
  · intro h
    simp only [Log.logger.sourced, h]
    exact Log.lookupField_setField _ _ _
  · intro h
    simp only [Log.logger.sourced, h]
    exact Log.lookupField_setField _ _ _
  · unfold Log.sourcedFile
    cases h : Log.lastIndex s.data '/' with
    | none =>
        exact ⟨Log.lastIndex_none h, [], by simp⟩
    | some i =>
        obtain ⟨h1, h2, h3⟩ := Log.lastIndex_spec h
        refine ⟨h3, s.data.take (i + 1), ?_, Or.inr ?_⟩
        · rw [List.take_append_drop]
        · exact Log.getLast?_take_succ h2

/-- Witness for C5: the empty stack yields the sentinel src value; a
three-frame stack with application frame p/q/r.go line 7 yields the
final path segment r.go with the line. -/
theorem log_sourced_resolution_witness :
    Log.lookupField (Log.baseLogger.sourced []).fields "src" =
      some (.str "<???>:1") ∧
    Log.lookupField
        (Log.baseLogger.sourced
          [⟨"a.go", 1⟩, ⟨"b.go", 2⟩, ⟨"p/q/r.go", 7⟩]).fields "src" =
      some (.str (Log.sourcedFile "p/q/r.go" ++ ":" ++ toString 7)) :=
  ⟨(log_sourced_resolution Log.baseLogger [] ⟨"x", 0⟩ "x").1 rfl,
   (log_sourced_resolution Log.baseLogger
      [⟨"a.go", 1⟩, ⟨"b.go", 2⟩, ⟨"p/q/r.go", 7⟩] ⟨"p/q/r.go", 7⟩ "x").2.1
     rfl⟩

/-- C3: Init is total — it configures the shared logger for every config.
When the directory cannot be ensured read-writable, or the path exists
and is not a regular file, the sink falls back to the current directory
with the random 8-lowercase-character name followed by .log; when the
level name does not parse, the effective level is Info. -/
theorem log_init_fallbacks (config : Log.Config) (env : Log.InitEnv)
    (w : Log.World) :
    ((env.ensureDirRWFails = true ∨
        (env.isExist = true ∧ env.isFile = false)) →
      (Log.Init config env w Log.origLoggerRef).out =
        .multiStdoutFile "./" (env.randStr ++ ".log") Log.initRotation) ∧
    (Log.parseLevel config.Level = none →
      (Log.Init config env w Log.origLoggerRef).level = .InfoLevel) ∧
    ((env.randStr ++ ".log").data = env.randStr.data ++ ['.', 'l', 'o', 'g']) := by
  refine ⟨?_, ?_, rfl⟩
  · intro hf
    rcases hf with hf | ⟨hf1, hf2⟩ <;>
      simp [Log.Init, Log.SetOut, Log.SetLevel, Log.origLoggerRef,
        Log.baseLogger, *]
  · intro hp
    simp [Log.Init, Log.SetOut, Log.SetLevel, Log.origLoggerRef,
      Log.baseLogger, hp]

/-- Witness for C3: an unwritable directory and the bogus level name
yield the fallback sink ./abcdefgh.log and the effective level Info. -/
theorem log_init_fallbacks_witness :
    (Log.Init ⟨"unwritable/x.log", "bogus"⟩
        ⟨"unwritable", "x.log", true, false, false, "abcdefgh"⟩
        Log.defaultWorld Log.origLoggerRef).out =
      .multiStdoutFile "./" ("abcdefgh" ++ ".log") Log.initRotation ∧
    (Log.Init ⟨"unwritable/x.log", "bogus"⟩
        ⟨"unwritable", "x.log", true, false, false, "abcdefgh"⟩
        Log.defaultWorld Log.origLoggerRef).level = .InfoLevel :=
  ⟨(log_init_fallbacks ⟨"unwritable/x.log", "bogus"⟩
      ⟨"unwritable", "x.log", true, false, false, "abcdefgh"⟩
      Log.defaultWorld).1 (Or.inl rfl),
   (log_init_fallbacks ⟨"unwritable/x.log", "bogus"⟩
      ⟨"unwritable", "x.log", true, false, false, "abcdefgh"⟩
      Log.defaultWorld).2.1 (by decide)⟩

namespace Validator

theorem validateReg_ne_range (i : IDCard) :
    i.validateReg ≠ some .ErrBirthRangeInvalid := by
  unfold IDCard.validateReg
  split <;> simp

theorem validateArea_ne_range (i : IDCard) :
    i.validateArea ≠ some .ErrBirthRangeInvalid := by
  unfold IDCard.validateArea
  split <;> simp

theorem validateSum_ne_range (i : IDCard) :
    i.validateSum ≠ some .ErrBirthRangeInvalid := by
  simp only [IDCard.validateSum]
  split
  · split <;> simp
  · simp

end Validator

/-- C9: the area table keys Shanghai under a string that starts with a
space, not under 31, so the two-character prefix of an ID number can
never resolve to it — every number that passes the format check and
starts with 31 is rejected with the address error. -/
theorem validator_area_leading_space (card : Validator.IDCard)
    (now : Validator.Date)
    (hm : Validator.matchReg card.Number = true)
    (h31 : card.Number.take 2 = ['3', '1']) :
    Validator.area.lookup " 31" = some "上海" ∧
    Validator.area.lookup "31" = none ∧
    card.Validate now = (false, some .ErrAddressInvalid) := by
  refine ⟨by decide, by decide, ?_⟩
  have hreg : card.validateReg = none := by
    simp [Validator.IDCard.validateReg, hm]
  have harea : card.validateArea = some .ErrAddressInvalid := by
    unfold Validator.IDCard.validateArea
    rw [h31]
    decide
  simp [Validator.IDCard.Validate, hreg, harea]

/-- Witness for C9: a format-valid number starting with 31 is rejected
with the address error. -/
theorem validator_area_leading_space_witness :
    Validator.matchReg
        ['3', '1', '0', '0', '0', '0', '1', '9', '9', '0', '0', '1', '0',
         '1', '1', '2', '3', '4'] = true ∧
    Validator.IDCard.Validate
        ⟨['3', '1', '0', '0', '0', '0', '1', '9', '9', '0', '0', '1', '0',
          '1', '1', '2', '3', '4']⟩ ⟨2026, 10, 11⟩ =
      (false, some .ErrAddressInvalid) :=
  ⟨by decide,
   (validator_area_leading_space
      ⟨['3', '1', '0', '0', '0', '0', '1', '9', '9', '0', '0', '1', '0',
        '1', '1', '2', '3', '4']⟩ ⟨2026, 10, 11⟩ (by decide)
      (by decide)).2.2⟩

/-- C10: the birth-range branch needs the parsed date to be after now and
before the year-1890 lower bound at once, which is unsatisfiable whenever
now is past that bound, so neither validateBirth nor Validate ever
returns the birth-range error. -/
theorem validator_birth_range_unreachable (card : Validator.IDCard)
    (now d : Validator.Date)
    (h : Validator.min_date.key < now.key) :
    (¬(d.After now = true ∧ d.Before Validator.min_date = true)) ∧
    (card.validateBirth now ≠ some .ErrBirthRangeInvalid) ∧
    ((card.Validate now).2 ≠ some .ErrBirthRangeInvalid) := by
  have unsat : ∀ e : Validator.Date,
      ¬(e.After now = true ∧ e.Before Validator.min_date = true) := by
    rintro e ⟨h1, h2⟩
    have h1' : now.key < e.key := of_decide_eq_true h1
    have h2' : e.key < Validator.min_date.key := of_decide_eq_true h2
    exact lt_irrefl _ (lt_trans (lt_trans h1' h2') h)
  have hbirth : card.validateBirth now ≠ some .ErrBirthRangeInvalid := by
    unfold Validator.IDCard.validateBirth
    cases hp : Validator.timeParse ((card.Number.drop 6).take 8) with
    | none => simp
    | some date =>
        have hc : (date.After now && date.Before Validator.min_date) = false := by
          by_contra hcc
          rw [Bool.not_eq_false, Bool.and_eq_true] at hcc
          exact unsat date hcc
        simp [hc]
  refine ⟨unsat d, hbirth, ?_⟩
  intro hEq
  cases hr : card.validateReg with
  | some e =>
      have h2 := Validator.validateReg_ne_range card
      rw [hr] at h2
      simp only [Validator.IDCard.Validate, hr] at hEq
      exact h2 hEq
  | none =>
      cases ha : card.validateArea with
      | some e =>
          have h2 := Validator.validateArea_ne_range card
          rw [ha] at h2
          simp only [Validator.IDCard.Validate, hr, ha] at hEq
          exact h2 hEq
      | none =>
          cases hb : card.validateBirth now with
          | some e =>
              have h2 := hbirth
              rw [hb] at h2
              simp only [Validator.IDCard.Validate, hr, ha, hb] at hEq
              exact h2 hEq
          | none =>
              cases hs : card.validateSum with
              | some e =>
                  have h2 := Validator.validateSum_ne_range card
                  rw [hs] at h2
                  simp only [Validator.IDCard.Validate, hr, ha, hb, hs] at hEq
                  exact h2 hEq
              | none =>
                  simp only [Validator.IDCard.Validate, hr, ha, hb, hs] at hEq
                  cases hEq

/-- Witness for C10: with now past the lower bound, a concrete card is
never rejected with the birth-range error. -/
theorem validator_birth_range_unreachable_witness :
    (¬((⟨1990, 1, 1⟩ : Validator.Date).After ⟨2026, 10, 11⟩ = true ∧
        (⟨1990, 1, 1⟩ : Validator.Date).Before Validator.min_date = true)) ∧
    ((⟨['3', '1', '0', '0', '0', '0', '1', '9', '9', '0', '0', '1', '0',
        '1', '1', '2', '3', '4']⟩ : Validator.IDCard).validateBirth
        ⟨2026, 10, 11⟩ ≠ some .ErrBirthRangeInvalid) ∧
    (((⟨['3', '1', '0', '0', '0', '0', '1', '9', '9', '0', '0', '1', '0',
         '1', '1', '2', '3', '4']⟩ : Validator.IDCard).Validate
        ⟨2026, 10, 11⟩).2 ≠ some .ErrBirthRangeInvalid) :=
  validator_birth_range_unreachable
    ⟨['3', '1', '0', '0', '0', '0', '1', '9', '9', '0', '0', '1', '0',
      '1', '1', '2', '3', '4']⟩ ⟨2026, 10, 11⟩ ⟨1990, 1, 1⟩ (by decide)
